import Mathlib

/-
  Verification of the DCF valuation engine (streamlit_app.py).

  The numeric core of the script (the forecast loop, the discounting block,
  the sensitivity-table loop and the Monte Carlo loop) is embedded over ℚ:
  Python floats are idealised as exact rationals.  Where Python float
  division by zero would yield a non-finite value, Lean's total division
  on ℚ yields 0; every place this matters is flagged in a doc comment.
-/

namespace DCF

/-- Sidebar assumption ratios of the script (sliders, lines 49-56). -/
structure AssumptionSet where
  growthRate : ℚ
  ebitMargin : ℚ
  taxRate : ℚ
  capexPct : ℚ
  depPct : ℚ
  nwcPct : ℚ
  discountRate : ℚ
  terminalGrowth : ℚ
deriving Repr, DecidableEq

/-- One row of the projection table built by the forecast loop (lines 62-80). -/
structure ForecastYear where
  revenue : ℚ
  ebit : ℚ
  nopat : ℚ
  depreciation : ℚ
  capex : ℚ
  nwcChange : ℚ
  fcf : ℚ
deriving Repr, DecidableEq

/-- Default row used with List.getD. -/
def fyDefault : ForecastYear := ⟨0, 0, 0, 0, 0, 0, 0⟩

/-- Body of the forecast loop (lines 62-70): `i` is the 0-based loop index,
so the period number is `i + 1`.  Revenue is compounded from the base
revenue, `last_revenue * (1 + growth_rate) ** (i + 1)`. -/
def forecastYear (lastRevenue : ℚ) (a : AssumptionSet) (i : ℕ) : ForecastYear :=
  let revenue := lastRevenue * (1 + a.growthRate) ^ (i + 1)
  let ebit := revenue * a.ebitMargin
  let tax := ebit * a.taxRate
  let nopat := ebit - tax
  let depreciation := revenue * a.depPct
  let capex := revenue * a.capexPct
  let nwcChange := revenue * a.nwcPct
  let fcf := nopat + depreciation - capex - nwcChange
  ⟨revenue, ebit, nopat, depreciation, capex, nwcChange, fcf⟩

/-- The forecast loop over the horizon (lines 59-80); the script fixes the
horizon at 5 periods (`years = 2024..2028`), here it is a parameter `n`. -/
def project (lastRevenue : ℚ) (a : AssumptionSet) (n : ℕ) : List ForecastYear :=
  (List.range n).map (forecastYear lastRevenue a)

/-- Horizon used by the script: `len(years) = 5`. -/
def forecastHorizon : ℕ := 5

/-- Slider default assumptions of the Base scenario (lines 42-56). -/
def baseAssumptions : AssumptionSet :=
  ⟨5/100, 25/100, 21/100, 6/100, 5/100, 2/100, 8/100, 25/1000⟩

/-- Per-year discount factor column (line 83): `1 / (1 + discount_rate) ** (i + 1)`. -/
def discountFactor (d : ℚ) (i : ℕ) : ℚ := 1 / (1 + d) ^ (i + 1)

/-- Sum of the `Discounted FCF` column (lines 83-84, 89): each cash flow is
multiplied by its discount factor and the column is summed. -/
def discountedSum (fcfs : List ℚ) (d : ℚ) : ℚ :=
  ((List.range fcfs.length).map (fun i => fcfs.getD i 0 * discountFactor d i)).sum

/-- Terminal value (line 86): `fcf_N * (1 + terminal_growth) / (discount_rate - terminal_growth)`.
When `d = g` the Python code divides by float zero (yielding a non-finite
value); over ℚ the quotient is 0. -/
def terminalValue (fcfs : List ℚ) (d g : ℚ) : ℚ :=
  fcfs.getLast?.getD 0 * (1 + g) / (d - g)

/-- Present value of the terminal value (line 87): `tv / (1 + discount_rate) ** N`. -/
def presentValueTV (fcfs : List ℚ) (d g : ℚ) : ℚ :=
  terminalValue fcfs d g / (1 + d) ^ fcfs.length

/-- Enterprise value (line 89): discounted FCF sum plus discounted terminal value. -/
def enterpriseValue (fcfs : List ℚ) (d g : ℚ) : ℚ :=
  discountedSum fcfs d + presentValueTV fcfs d g

/-- Error taxonomy of the specification (§7).  The source script raises none
of these; they are used to compare the code against the spec-side checked
operations. -/
inductive DCFError where
  | divergentTerminalValue
  | divisionByZero
deriving Repr, DecidableEq

/-- The discounting block of the script as a fallible operation: the straight
line code of lines 83-89 has no failure path (numpy float division by zero
produces a non-finite value rather than raising), so it always returns `ok`. -/
def discountResult (fcfs : List ℚ) (d g : ℚ) : Except DCFError ℚ :=
  Except.ok (enterpriseValue fcfs d g)

/-- Spec-side checked discount (§4.2, §7): fails with DivergentTerminalValue
when `discountRate ≤ terminalGrowthRate`.  This definition follows the spec's
words; the source has no such check. -/
def discountChecked (fcfs : List ℚ) (d g : ℚ) : Except DCFError ℚ :=
  if d ≤ g then Except.error DCFError.divergentTerminalValue
  else Except.ok (enterpriseValue fcfs d g)

/-- Equity value (line 112): `enterprise_value * 1e6 - debt + cash` — the
enterprise value is in millions and is converted to dollars before the
dollar-denominated debt and cash are combined with it. -/
def equity_value (ev cash debt : ℚ) : ℚ := ev * 1000000 - debt + cash

/-- Price target (line 113): `equity_value / shares if shares else 0`. -/
def price_target (equityValue shares : ℚ) : ℚ :=
  if shares ≠ 0 then equityValue / shares else 0

/-- The price-target computation as a fallible operation: the guarded line 113
never raises, so it always returns `ok`. -/
def priceTargetResult (equityValue shares : ℚ) : Except DCFError ℚ :=
  Except.ok (price_target equityValue shares)

/-- Spec-side checked price per share (§4.2, §7): fails with DivisionByZero
when shares outstanding is zero.  This definition follows the spec's words;
the source instead returns the sentinel 0. -/
def pricePerShareChecked (equityValue shares : ℚ) : Except DCFError ℚ :=
  if shares = 0 then Except.error DCFError.divisionByZero
  else Except.ok (equityValue / shares)

/-- Model of Python's built-in rounding to the nearest integer with ties to
even (banker's rounding), as performed by `round(x, 2)` on the grid cells. -/
def roundHalfEven (q : ℚ) : ℤ :=
  if q - Int.floor q < 1/2 then Int.floor q
  else if q - Int.floor q > 1/2 then Int.floor q + 1
  else if Even (Int.floor q) then Int.floor q else Int.floor q + 1

/-- Model of `round(x, 2)` (line 131): round to two decimal places, ties to
even; float representation noise is idealised away. -/
def pyRound2 (q : ℚ) : ℚ := (roundHalfEven (q * 100) : ℚ) / 100

/-- Body of the sensitivity loop (lines 127-131): terminal value from the
final baseline FCF at (d, g), present value of it at d, the whole baseline
FCF sequence re-discounted at d, summed, divided by 1000 and stored after
`round(·, 2)`.  When `d = g` the Python code divides by float zero (the cell
gets a non-finite value); over ℚ the terminal quotient is 0 — either way the
cell is computed and stored, not skipped. -/
def sensCell (fcfs : List ℚ) (d g : ℚ) : ℚ :=
  pyRound2 ((discountedSum fcfs d + presentValueTV fcfs d g) / 1000)

/-- The sensitivity table loop (lines 125-131): a dense row-major grid over
the two rate axes, every cell computed unconditionally by `sensCell`. -/
def sensitivityGrid (discounts growths fcfs : List ℚ) : List (List ℚ) :=
  discounts.map (fun d => growths.map (fun g => sensCell fcfs d g))

/-- The script's discount-rate axis (line 120): `np.arange(0.07, 0.105, 0.005)`,
seven values 0.07 .. 0.10. -/
def codeDiscountAxis : List ℚ := (List.range 7).map (fun (k : ℕ) => 7/100 + (k : ℚ) * (5/1000))

/-- The script's terminal-growth axis (line 121): `np.arange(0.01, 0.045, 0.005)`,
seven values 0.01 .. 0.04. -/
def codeGrowthAxis : List ℚ := (List.range 7).map (fun (k : ℕ) => 1/100 + (k : ℚ) * (5/1000))

/-- Spec-side guarded grid cell (§4.3, §7 UndefinedGridCell): a cell with
`d = g` is marked undefined.  This definition follows the spec's words; the
source loop has no such guard. -/
def sensCellChecked (fcfs : List ℚ) (d g : ℚ) : Option ℚ :=
  if d = g then none else some (sensCell fcfs d g)

/-- State of the pseudo-random source.  The script seeds numpy's global
generator (`np.random.seed(42)`, line 138) immediately before drawing; the
generator is modelled as an explicit deterministic stream — a pure function
of the seed, which is the property of numpy's seeded generator the claims
rely on (the exact bits of MT19937 are external-library detail). -/
structure RNGState where
  s : ℕ
deriving Repr, DecidableEq

/-- Seeding (`np.random.seed(seed)`): numpy takes the seed modulo 2^32. -/
def seedState (seed : ℕ) : RNGState := ⟨seed % 2 ^ 32⟩

/-- One step of the modelled generator (a linear congruential step mod 2^32). -/
def rngNext (st : RNGState) : ℕ × RNGState :=
  let x := (1664525 * st.s + 1013904223) % 2 ^ 32
  (x, ⟨x⟩)

/-- One modelled standard-normal variate: a deterministic value in [-1, 1)
standing in for the float normal sample. -/
def drawUnit (st : RNGState) : ℚ × RNGState :=
  let p := rngNext st
  ((p.1 : ℚ) / 2 ^ 31 - 1, p.2)

/-- One modelled draw from Normal(mu, sigma): mu + sigma * unit sample. -/
def drawNormal (mu sigma : ℚ) (st : RNGState) : ℚ × RNGState :=
  let p := drawUnit st
  (mu + sigma * p.1, p.2)

/-- A sequence of draws (`np.random.normal(mu, sigma, n)`), threading state. -/
def drawNormals (mu sigma : ℚ) : ℕ → RNGState → List ℚ × RNGState
  | 0, st => ([], st)
  | n + 1, st =>
      let p := drawNormal mu sigma st
      let q := drawNormals mu sigma n p.2
      (p.1 :: q.1, q.2)

/-- Per-trial free-cash-flow list of the Monte Carlo loop (lines 145-151):
five periods, each term recomputing `last_revenue * (1 + g) ** (i + 1)` and
applying tax directly as `* m * (1 - tax_rate)` on revenue. -/
def mcTrialFCF (lastRevenue g m taxRate depPct capexPct nwcPct : ℚ) : List ℚ :=
  (List.range 5).map (fun i =>
    (lastRevenue * (1 + g) ^ (i + 1)) * m * (1 - taxRate)
      + (lastRevenue * (1 + g) ^ (i + 1)) * depPct
      - (lastRevenue * (1 + g) ^ (i + 1)) * capexPct
      - (lastRevenue * (1 + g) ^ (i + 1)) * nwcPct)

/-- Per-trial enterprise value (lines 152-155): discount the trial FCFs at
the baseline discount rate, add the terminal value from the baseline
terminal growth discounted over the literal exponent 5. -/
def mcTrialEV (lastRevenue : ℚ) (a : AssumptionSet) (g m : ℚ) : ℚ :=
  let fcfs := mcTrialFCF lastRevenue g m a.taxRate a.depPct a.capexPct a.nwcPct
  let discFcf :=
    ((List.range fcfs.length).map (fun i => fcfs.getD i 0 / (1 + a.discountRate) ^ (i + 1))).sum
  let tvSim := fcfs.getLast?.getD 0 * (1 + a.terminalGrowth) / (a.discountRate - a.terminalGrowth)
  discFcf + tvSim / (1 + a.discountRate) ^ 5

/-- The Monte Carlo block (lines 137-155): seed, draw all growth samples,
then all margin samples, zip them, and map each (g, m) pair to its trial
enterprise value.  Returns the ordered draw pairs and the ordered EV list. -/
def simulate (lastRevenue : ℚ) (a : AssumptionSet) (growthSd marginSd : ℚ)
    (trials seed : ℕ) : List (ℚ × ℚ) × List ℚ :=
  let st0 := seedState seed
  let gsp := drawNormals a.growthRate growthSd trials st0
  let msp := drawNormals a.ebitMargin marginSd trials gsp.2
  let pairs := gsp.1.zip msp.1
  (pairs, pairs.map (fun p => mcTrialEV lastRevenue a p.1 p.2))

/-- Helper: a mapped range list summed equals the Finset.range sum. -/
lemma sum_map_range (n : ℕ) (f : ℕ → ℚ) :
    ((List.range n).map f).sum = ∑ i in Finset.range n, f i := by
  induction n with
  | zero => simp
  | succ m ih =>
      rw [List.range_succ, List.map_append, List.sum_append, Finset.sum_range_succ, ih]
      simp

/-- Helper: getD of a mapped list below the length. -/
lemma map_getD {α β : Type} (f : α → β) (l : List α) (i : ℕ) (hi : i < l.length)
    (d0 : α) (d1 : β) : (l.map f).getD i d1 = f (l.getD i d0) := by
  induction l generalizing i with
  | nil => simp at hi
  | cons a t ih =>
      cases i with
      | zero => rfl
      | succ m =>
          simp only [List.map_cons, List.getD_cons_succ]
          exact ih m (by simpa using hi)

/-- Helper: getD on List.range below the length. -/
lemma range_getD (n i : ℕ) (hi : i < n) : (List.range n).getD i 0 = i := by
  induction n with
  | zero => omega
  | succ m ih =>
      rw [List.range_succ]
      rcases Nat.lt_or_ge i m with h | h
      · rw [List.getD_append _ _ _ _ (by simpa using h)]
        exact ih h
      · have : i = m := by omega
        subst this
        rw [List.getD_append_right _ _ _ _ (by simp)]
        simp

/-- Helper: a projection row below the horizon is the forecast-loop body. -/
lemma project_getD (base : ℚ) (a : AssumptionSet) (n i : ℕ) (h : i < n) :
    (project base a n).getD i fyDefault = forecastYear base a i := by
  unfold project
  rw [map_getD (forecastYear base a) (List.range n) i (by simpa using h) 0 fyDefault,
    range_getD n i h]

/-- C1: every projection row i (0-based; period i+1) satisfies
revenue = baseRevenue*(1+growthRate)^(i+1) compounded from the base revenue,
ebit = revenue*ebitMargin, nopat = ebit*(1-taxRate),
depreciation = revenue*depreciationPct, capex = revenue*capexPct,
nwcChange = revenue*nwcChangePct, and
fcf = nopat + depreciation - capex - nwcChange. -/
theorem growth_compounded_forecast (base : ℚ) (a : AssumptionSet) (n i : ℕ) (h : i < n) :
    ((project base a n).getD i fyDefault).revenue = base * (1 + a.growthRate) ^ (i + 1)
    ∧ ((project base a n).getD i fyDefault).ebit
        = ((project base a n).getD i fyDefault).revenue * a.ebitMargin
    ∧ ((project base a n).getD i fyDefault).nopat
        = ((project base a n).getD i fyDefault).ebit * (1 - a.taxRate)
    ∧ ((project base a n).getD i fyDefault).depreciation
        = ((project base a n).getD i fyDefault).revenue * a.depPct
    ∧ ((project base a n).getD i fyDefault).capex
        = ((project base a n).getD i fyDefault).revenue * a.capexPct
    ∧ ((project base a n).getD i fyDefault).nwcChange
        = ((project base a n).getD i fyDefault).revenue * a.nwcPct
    ∧ ((project base a n).getD i fyDefault).fcf
        = ((project base a n).getD i fyDefault).nopat
          + ((project base a n).getD i fyDefault).depreciation
          - ((project base a n).getD i fyDefault).capex
          - ((project base a n).getD i fyDefault).nwcChange := by
  rw [project_getD base a n i h]
  unfold forecastYear
  refine ⟨rfl, rfl, by ring, rfl, rfl, rfl, rfl⟩

/-- Witness for C1: base revenue 100, default assumptions, horizon 5, row 0. -/
theorem growth_compounded_forecast_w :
    ((project 100 baseAssumptions 5).getD 0 fyDefault).revenue
        = 100 * (1 + baseAssumptions.growthRate) ^ (0 + 1)
    ∧ ((project 100 baseAssumptions 5).getD 0 fyDefault).ebit
        = ((project 100 baseAssumptions 5).getD 0 fyDefault).revenue * baseAssumptions.ebitMargin
    ∧ ((project 100 baseAssumptions 5).getD 0 fyDefault).nopat
        = ((project 100 baseAssumptions 5).getD 0 fyDefault).ebit * (1 - baseAssumptions.taxRate)
    ∧ ((project 100 baseAssumptions 5).getD 0 fyDefault).depreciation
        = ((project 100 baseAssumptions 5).getD 0 fyDefault).revenue * baseAssumptions.depPct
    ∧ ((project 100 baseAssumptions 5).getD 0 fyDefault).capex
        = ((project 100 baseAssumptions 5).getD 0 fyDefault).revenue * baseAssumptions.capexPct
    ∧ ((project 100 baseAssumptions 5).getD 0 fyDefault).nwcChange
        = ((project 100 baseAssumptions 5).getD 0 fyDefault).revenue * baseAssumptions.nwcPct
    ∧ ((project 100 baseAssumptions 5).getD 0 fyDefault).fcf
        = ((project 100 baseAssumptions 5).getD 0 fyDefault).nopat
          + ((project 100 baseAssumptions 5).getD 0 fyDefault).depreciation
          - ((project 100 baseAssumptions 5).getD 0 fyDefault).capex
          - ((project 100 baseAssumptions 5).getD 0 fyDefault).nwcChange :=
  growth_compounded_forecast 100 baseAssumptions 5 0 (by norm_num)

/-- Helper: closed form of the discounting block, valid for any rates. -/
lemma enterpriseValue_eq_sum (fcfs : List ℚ) (d g : ℚ) :
    enterpriseValue fcfs d g =
      (∑ i in Finset.range fcfs.length, fcfs.getD i 0 / (1 + d) ^ (i + 1))
        + (fcfs.getLast?.getD 0 * (1 + g) / (d - g)) / (1 + d) ^ fcfs.length := by
  unfold enterpriseValue discountedSum presentValueTV terminalValue discountFactor
  rw [sum_map_range]
  congr 1
  exact Finset.sum_congr rfl (fun i _ => mul_one_div (fcfs.getD i 0) ((1 + d) ^ (i + 1)))

/-- C2: for discountRate > terminalGrowthRate the discounting block returns
enterpriseValue = sum over i of fcf_i / (1+d)^(i+1) (0-based i) plus
terminalValue / (1+d)^N with terminalValue = fcf_N * (1+g) / (d - g). -/
theorem enterprise_value_formula (fcfs : List ℚ) (d g : ℚ) (h : g < d) :
    enterpriseValue fcfs d g =
      (∑ i in Finset.range fcfs.length, fcfs.getD i 0 / (1 + d) ^ (i + 1))
        + (fcfs.getLast?.getD 0 * (1 + g) / (d - g)) / (1 + d) ^ fcfs.length :=
  enterpriseValue_eq_sum fcfs d g

/-- Witness for C2: a one-year projection with fcf = 100, d = 0.09, g = 0.02. -/
theorem enterprise_value_formula_w :
    enterpriseValue [100] (9/100) (2/100) =
      (∑ i in Finset.range (List.length [(100 : ℚ)]),
          (List.getD [(100 : ℚ)] i 0) / (1 + 9/100) ^ (i + 1))
        + ((List.getLast? [(100 : ℚ)]).getD 0 * (1 + 2/100) / (9/100 - 2/100))
            / (1 + 9/100) ^ (List.length [(100 : ℚ)]) :=
  enterprise_value_formula [100] (9/100) (2/100) (by norm_num)

/-- C3 counterexample: at discountRate = terminalGrowthRate = 0.08 the code's
discounting block returns a plain enterprise value (here, for the one-year
projection [100], the discounted FCF sum 2500/27 — over ℚ the zero-denominator
terminal term contributes 0; in Python float semantics it is non-finite), not
a DivergentTerminalValue error, while the spec-side checked discount fails. -/
theorem discount_no_divergence_check_cex :
    discountResult [100] (8/100) (8/100) = Except.ok (2500/27)
    ∧ discountChecked [100] (8/100) (8/100)
        = Except.error DCFError.divergentTerminalValue := by
  constructor
  · unfold discountResult enterpriseValue discountedSum presentValueTV terminalValue
      discountFactor
    norm_num [List.range_succ]
  · unfold discountChecked
    rw [if_pos le_rfl]

/-- C3 amended: the code performs no divergence check — the discounting block
never signals an error, and it agrees with the spec-side checked discount
exactly on inputs with discountRate > terminalGrowthRate. -/
theorem discount_unchecked_total (fcfs : List ℚ) (d g : ℚ) :
    (discountResult fcfs d g).isOk = true
    ∧ (g < d → discountResult fcfs d g = discountChecked fcfs d g) := by
  refine ⟨rfl, fun h => ?_⟩
  unfold discountResult discountChecked
  rw [if_neg (not_le.mpr h)]

/-- Witness for C3 amended: one-year projection, d = 0.09 > g = 0.025. -/
theorem discount_unchecked_total_w :
    discountResult [100] (9/100) (25/1000) = discountChecked [100] (9/100) (25/1000) :=
  (discount_unchecked_total [100] (9/100) (25/1000)).2 (by norm_num)

/-- C8 counterexample: with enterpriseValue = 1, cash = 0, debt = 0 the code
returns 1000000, not 1 - 0 + 0 = 1: line 112 multiplies the (millions-scaled)
enterprise value by 1e6 before subtracting debt and adding cash. -/
theorem equity_value_unit_cex : equity_value 1 0 0 ≠ 1 - 0 + 0 := by
  unfold equity_value
  norm_num

/-- C8 amended: the equity-value operation returns
enterpriseValue * 1e6 - debt + cash; equivalently the claim's formula holds
once debt and cash are expressed in millions like the enterprise value. -/
theorem equity_value_formula (ev cash debt : ℚ) :
    equity_value ev cash debt = ev * 1000000 - debt + cash
    ∧ equity_value ev cash debt = (ev - debt / 1000000 + cash / 1000000) * 1000000 := by
  refine ⟨rfl, ?_⟩
  unfold equity_value
  ring

/-- C9 counterexample: with sharesOutstanding = 0 the code silently returns
the sentinel price 0 (Except.ok 0), while the spec-side checked computation
surfaces a DivisionByZero condition — no error condition reaches the caller. -/
theorem price_target_silent_zero_cex :
    priceTargetResult 100 0 = Except.ok 0
    ∧ pricePerShareChecked 100 0 = Except.error DCFError.divisionByZero := by
  constructor
  · unfold priceTargetResult price_target
    norm_num
  · unfold pricePerShareChecked
    rw [if_pos rfl]

/-- C9 amended: when sharesOutstanding is zero the guarded line 113 returns 0
(no fault is raised and no error condition is surfaced); for nonzero shares
it returns equityValue / shares and agrees with the spec-side checked
computation. -/
theorem price_target_behavior (ev shares : ℚ) :
    (shares = 0 → price_target ev shares = 0)
    ∧ (shares ≠ 0 → price_target ev shares = ev / shares
        ∧ priceTargetResult ev shares = pricePerShareChecked ev shares) := by
  constructor
  · intro h
    unfold price_target
    rw [if_neg (by simpa using h)]
  · intro h
    have h1 : price_target ev shares = ev / shares := by
      unfold price_target
      rw [if_pos h]
    refine ⟨h1, ?_⟩
    unfold priceTargetResult pricePerShareChecked
    rw [h1, if_neg h]

/-- Witness for C9 amended: equity value 100, two shares outstanding. -/
theorem price_target_behavior_w :
    price_target 100 2 = 100 / 2
    ∧ priceTargetResult 100 2 = pricePerShareChecked 100 2 :=
  (price_target_behavior 100 2).2 (by norm_num)

/-- Helper: value of pyRound2 when the scaled argument rounds down. -/
lemma pyRound2_eq_down (q : ℚ) (z : ℤ) (h1 : (z : ℚ) ≤ q * 100)
    (h2 : q * 100 - (z : ℚ) < 1/2) : pyRound2 q = (z : ℚ) / 100 := by
  unfold pyRound2 roundHalfEven
  have hf : Int.floor (q * 100) = z := by
    rw [Int.floor_eq_iff]
    exact ⟨h1, by linarith⟩
  rw [hf, if_pos h2]

/-- Helper: the one-year baseline [1] at d = 0.10, g = 0.01 has un-rounded
total (divided by 1000) equal to 1/90. -/
lemma cex_total_eq :
    (discountedSum [1] (1/10) + presentValueTV [1] (1/10) (1/100)) / 1000 = 1/90 := by
  unfold discountedSum presentValueTV terminalValue discountFactor
  norm_num [List.range_succ]

/-- C4 counterexample: for the one-year baseline FCF list [1] at d = 0.10,
g = 0.01 the stored grid cell is 0.01 while the un-rounded total divided by
1000 is 1/90: line 131 stores `round(total / 1000, 2)`, which the claim
omits. -/
theorem sensitivity_cell_rounded_cex :
    sensCell [1] (1/10) (1/100)
      ≠ (discountedSum [1] (1/10) + presentValueTV [1] (1/10) (1/100)) / 1000 := by
  have hc : sensCell [1] (1/10) (1/100) = 1/100 := by
    unfold sensCell
    rw [cex_total_eq, pyRound2_eq_down (1/90) 1 (by norm_num) (by norm_num)]
    norm_num
  rw [hc, cex_total_eq]
  norm_num

/-- C4 amended: for d ≠ g the stored sensitivity-grid cell equals the full
baseline FCF sequence re-discounted at d plus the terminal value
finalYearFCF*(1+g)/(d-g) discounted by (1+d)^N, the total divided by 1000
and then rounded to two decimal places (Python `round`, ties to even). -/
theorem sensitivity_cell_formula (fcfs : List ℚ) (d g : ℚ) (h : d ≠ g) :
    sensCell fcfs d g =
      pyRound2 (((∑ i in Finset.range fcfs.length, fcfs.getD i 0 / (1 + d) ^ (i + 1))
        + (fcfs.getLast?.getD 0 * (1 + g) / (d - g)) / (1 + d) ^ fcfs.length) / 1000) := by
  show pyRound2 (enterpriseValue fcfs d g / 1000) = _
  rw [enterpriseValue_eq_sum]

/-- Witness for C4 amended: baseline FCF [1], d = 0.10, g = 0.01. -/
theorem sensitivity_cell_formula_w :
    sensCell [1] (1/10) (1/100) =
      pyRound2 (((∑ i in Finset.range (List.length [(1 : ℚ)]),
            (List.getD [(1 : ℚ)] i 0) / (1 + 1/10) ^ (i + 1))
        + ((List.getLast? [(1 : ℚ)]).getD 0 * (1 + 1/100) / (1/10 - 1/100))
            / (1 + 1/10) ^ (List.length [(1 : ℚ)])) / 1000) :=
  sensitivity_cell_formula [1] (1/10) (1/100) (by norm_num)

/-- C5 counterexample: for axes [0.08] and [0.08] the code's grid holds the
computed value 0.09 at its single coordinate, which has d = g — the cell is
neither skipped nor marked undefined (over ℚ the zero-denominator terminal
term is 0; in Python float semantics the stored value is non-finite — either
way a cell is computed and stored), while the spec-side guarded cell is
undefined there. -/
theorem grid_diagonal_not_skipped_cex :
    ((sensitivityGrid [8/100] [8/100] [100]).getD 0 []).getD 0 0 = 9/100
    ∧ sensCellChecked [100] (8/100) (8/100) = none := by
  constructor
  · show sensCell [100] (8/100) (8/100) = 9/100
    have ht : (discountedSum [100] (8/100) + presentValueTV [100] (8/100) (8/100)) / 1000
        = 5/54 := by
      unfold discountedSum presentValueTV terminalValue discountFactor
      norm_num [List.range_succ]
    unfold sensCell
    rw [ht, pyRound2_eq_down (5/54) 9 (by norm_num) (by norm_num)]
    norm_num
  · unfold sensCellChecked
    rw [if_pos rfl]

/-- C5 amended: the sensitivity loop applies no d = g guard — every cell of
the grid, diagonal ones included, is computed by the same unconditional
formula; each cell depends only on its own pair of axis entries (so no cell
can abort or corrupt another); the code agrees with the spec-side guarded
cell wherever d ≠ g; and on the script's hard-coded axes (0.07..0.10 by
0.005 against 0.01..0.04 by 0.005) no coordinate has d = g. -/
theorem grid_cells_independent (ds gs fcfs : List ℚ) (i j : ℕ)
    (hi : i < ds.length) (hj : j < gs.length) :
    ((sensitivityGrid ds gs fcfs).getD i []).getD j 0
        = sensCell fcfs (ds.getD i 0) (gs.getD j 0)
    ∧ (ds.getD i 0 ≠ gs.getD j 0 →
        sensCellChecked fcfs (ds.getD i 0) (gs.getD j 0)
          = some (sensCell fcfs (ds.getD i 0) (gs.getD j 0)))
    ∧ (∀ d, d ∈ codeDiscountAxis → ∀ g, g ∈ codeGrowthAxis → d ≠ g) := by
  refine ⟨?_, fun h => by unfold sensCellChecked; rw [if_neg h], ?_⟩
  · unfold sensitivityGrid
    rw [map_getD (fun d => gs.map (fun g => sensCell fcfs d g)) ds i hi 0 []]
    exact map_getD (fun g => sensCell fcfs (ds.getD i 0) g) gs j hj 0 0
  · intro d hd g hg
    rw [codeDiscountAxis] at hd
    rw [codeGrowthAxis] at hg
    obtain ⟨k, hk, rfl⟩ := List.mem_map.mp hd
    obtain ⟨l, hl, rfl⟩ := List.mem_map.mp hg
    have hk7 : k < 7 := List.mem_range.mp hk
    have hl7 : l < 7 := List.mem_range.mp hl
    have hkq : (0 : ℚ) ≤ (k : ℚ) := Nat.cast_nonneg k
    have hlq : (l : ℚ) ≤ 6 := by exact_mod_cast Nat.le_of_lt_succ hl7
    intro he
    have hdiff : (k : ℚ) * (5/1000) - (l : ℚ) * (5/1000) = -(6/100) := by linarith
    linarith

/-- Witness for C5 amended: the script's own axes at coordinate (0, 0) with
baseline FCFs [100]; both hypotheses hold since each axis has seven entries. -/
theorem grid_cells_independent_w :
    ((sensitivityGrid codeDiscountAxis codeGrowthAxis [100]).getD 0 []).getD 0 0
        = sensCell [100] (codeDiscountAxis.getD 0 0) (codeGrowthAxis.getD 0 0)
    ∧ (codeDiscountAxis.getD 0 0 ≠ codeGrowthAxis.getD 0 0 →
        sensCellChecked [100] (codeDiscountAxis.getD 0 0) (codeGrowthAxis.getD 0 0)
          = some (sensCell [100] (codeDiscountAxis.getD 0 0) (codeGrowthAxis.getD 0 0)))
    ∧ (∀ d, d ∈ codeDiscountAxis → ∀ g, g ∈ codeGrowthAxis → d ≠ g) :=
  grid_cells_independent codeDiscountAxis codeGrowthAxis [100] 0 0
    (by rw [codeDiscountAxis, List.length_map, List.length_range]; norm_num)
    (by rw [codeGrowthAxis, List.length_map, List.length_range]; norm_num)

/-- C6: the Monte Carlo block is deterministic — two executions from the
same seed, trial count and inputs yield identical ordered draw-pair
sequences and identical ordered per-trial enterprise-value sequences.  The
script reseeds numpy's generator (`np.random.seed(42)`) immediately before
drawing, so the draw stream is a function of the seed alone; the generator
is embedded as such a deterministic stream. -/
theorem mc_determinism (lastRevenue : ℚ) (a : AssumptionSet) (gsd msd : ℚ)
    (trials seed : ℕ) (r1 r2 : List (ℚ × ℚ) × List ℚ)
    (h1 : r1 = simulate lastRevenue a gsd msd trials seed)
    (h2 : r2 = simulate lastRevenue a gsd msd trials seed) :
    r1.1 = r2.1 ∧ r1.2 = r2.2 := by
  rw [h1, h2]
  exact ⟨rfl, rfl⟩

/-- Witness for C6: seed 42, 1000 trials, default assumptions and the
script's perturbation standard deviations 0.02 and 0.03. -/
theorem mc_determinism_w :
    (simulate 100 baseAssumptions (2/100) (3/100) 1000 42).1
        = (simulate 100 baseAssumptions (2/100) (3/100) 1000 42).1
    ∧ (simulate 100 baseAssumptions (2/100) (3/100) 1000 42).2
        = (simulate 100 baseAssumptions (2/100) (3/100) 1000 42).2 :=
  mc_determinism 100 baseAssumptions (2/100) (3/100) 1000 42
    (simulate 100 baseAssumptions (2/100) (3/100) 1000 42)
    (simulate 100 baseAssumptions (2/100) (3/100) 1000 42) rfl rfl

/-- C7: the Monte Carlo per-trial formula revenue*m*(1-t) equals the
deterministic forecast's explicit chain ebit = revenue*m, tax = ebit*t,
nopat = ebit - tax, and with the same growth and margin the two
formulations produce equal per-period free cash flows. -/
theorem nopat_formulations_equiv (lastRevenue : ℚ) (a : AssumptionSet) (g m : ℚ)
    (i : ℕ) (h : i < 5) :
    (lastRevenue * (1 + g) ^ (i + 1)) * m * (1 - a.taxRate)
        = (forecastYear lastRevenue
            ⟨g, m, a.taxRate, a.capexPct, a.depPct, a.nwcPct, a.discountRate,
              a.terminalGrowth⟩ i).nopat
    ∧ (mcTrialFCF lastRevenue g m a.taxRate a.depPct a.capexPct a.nwcPct).getD i 0
        = (forecastYear lastRevenue
            ⟨g, m, a.taxRate, a.capexPct, a.depPct, a.nwcPct, a.discountRate,
              a.terminalGrowth⟩ i).fcf := by
  constructor
  · simp only [forecastYear]
    ring
  · unfold mcTrialFCF
    rw [map_getD _ (List.range 5) i (by simpa using h) 0 0, range_getD 5 i h]
    simp only [forecastYear]
    ring

/-- Witness for C7: base revenue 100, default assumptions, growth 0.06,
margin 0.28, period index 0. -/
theorem nopat_formulations_equiv_w :
    (100 * (1 + 6/100) ^ (0 + 1)) * (28/100) * (1 - baseAssumptions.taxRate)
        = (forecastYear 100
            ⟨6/100, 28/100, baseAssumptions.taxRate, baseAssumptions.capexPct,
              baseAssumptions.depPct, baseAssumptions.nwcPct,
              baseAssumptions.discountRate, baseAssumptions.terminalGrowth⟩ 0).nopat
    ∧ (mcTrialFCF 100 (6/100) (28/100) baseAssumptions.taxRate baseAssumptions.depPct
          baseAssumptions.capexPct baseAssumptions.nwcPct).getD 0 0
        = (forecastYear 100
            ⟨6/100, 28/100, baseAssumptions.taxRate, baseAssumptions.capexPct,
              baseAssumptions.depPct, baseAssumptions.nwcPct,
              baseAssumptions.discountRate, baseAssumptions.terminalGrowth⟩ 0).fcf :=
  nopat_formulations_equiv 100 baseAssumptions (6/100) (28/100) 0 (by norm_num)

/-- C10 counterexample: raising the growth rate from 0.01 to 0.02 does not
strictly increase revenue when the base revenue is 0 (both revenues are 0),
and strictly decreases it when the base revenue is negative (-100) or when
the rates sit below -1 (from -3 to -2 at period index 1 with base 100) —
so the claim fails as stated for every base revenue and assumption set. -/
theorem revenue_monotonic_cex :
    (1 : ℚ)/100 < 2/100
    ∧ ¬ ((forecastYear 0 ⟨1/100, 25/100, 21/100, 6/100, 5/100, 2/100, 8/100, 25/1000⟩
            0).revenue
          < (forecastYear 0 ⟨2/100, 25/100, 21/100, 6/100, 5/100, 2/100, 8/100, 25/1000⟩
            0).revenue)
    ∧ ¬ ((forecastYear (-100) ⟨1/100, 25/100, 21/100, 6/100, 5/100, 2/100, 8/100, 25/1000⟩
            0).revenue
          < (forecastYear (-100) ⟨2/100, 25/100, 21/100, 6/100, 5/100, 2/100, 8/100, 25/1000⟩
            0).revenue)
    ∧ (-3 : ℚ) < -2
    ∧ ¬ ((forecastYear 100 ⟨-3, 25/100, 21/100, 6/100, 5/100, 2/100, 8/100, 25/1000⟩
            1).revenue
          < (forecastYear 100 ⟨-2, 25/100, 21/100, 6/100, 5/100, 2/100, 8/100, 25/1000⟩
            1).revenue) := by
  simp only [forecastYear]
  norm_num

/-- C10 amended: for a strictly positive base revenue and growth rates with
-1 ≤ g1 < g2 (all other assumptions held fixed), every period's revenue is
strictly larger under the larger growth rate. -/
theorem revenue_monotonic (base : ℚ) (a : AssumptionSet) (g1 g2 : ℚ) (i : ℕ)
    (hb : 0 < base) (hg1 : -1 ≤ g1) (h12 : g1 < g2) :
    (forecastYear base
        ⟨g1, a.ebitMargin, a.taxRate, a.capexPct, a.depPct, a.nwcPct, a.discountRate,
          a.terminalGrowth⟩ i).revenue
      < (forecastYear base
        ⟨g2, a.ebitMargin, a.taxRate, a.capexPct, a.depPct, a.nwcPct, a.discountRate,
          a.terminalGrowth⟩ i).revenue := by
  simp only [forecastYear]
  have hpow : (1 + g1) ^ (i + 1) < (1 + g2) ^ (i + 1) :=
    pow_lt_pow_left₀ (by linarith) (by linarith) (Nat.succ_ne_zero i)
  exact mul_lt_mul_of_pos_left hpow hb

/-- Witness for C10 amended: base revenue 100, growth 0.05 against 0.06,
period index 0. -/
theorem revenue_monotonic_w :
    (forecastYear 100
        ⟨5/100, baseAssumptions.ebitMargin, baseAssumptions.taxRate,
          baseAssumptions.capexPct, baseAssumptions.depPct, baseAssumptions.nwcPct,
          baseAssumptions.discountRate, baseAssumptions.terminalGrowth⟩ 0).revenue
      < (forecastYear 100
        ⟨6/100, baseAssumptions.ebitMargin, baseAssumptions.taxRate,
          baseAssumptions.capexPct, baseAssumptions.depPct, baseAssumptions.nwcPct,
          baseAssumptions.discountRate, baseAssumptions.terminalGrowth⟩ 0).revenue :=
  revenue_monotonic 100 baseAssumptions (5/100) (6/100) 0 (by norm_num) (by norm_num)
    (by norm_num)

end DCF
